import Mathlib

/-!
Shallow embedding of `src/scrapper/linkedin_job_scrapper.py` (the
Session-Driven Extraction Engine of the ai-job-match-maker repository).

The browser page is modelled as an oracle `env : String → JobPane` giving,
for each job identifier, the observations the scraper would make on that
job's detail pane (field extraction results, apply-button state, popup
outcome).  Python's insertion-ordered `dict[str, Job]` accumulation is
modelled as an insertion-ordered association list; `jobs[job_id] = job` for
a fresh key appends at the end, exactly as CPython dict insertion order.
Exceptions caught by a `try/except` are modelled as `Option`/outcome
constructors at the point the source catches them.
-/

namespace LinkedinJobScrapper

/-- Python's `str.strip()`: drop leading and trailing whitespace.
(The source calls `.strip()` on every scalar field before constructing the
`Job`; modelled structurally over the character list so that concrete
instances reduce in the kernel.) -/
def pyStrip (s : String) : String :=
  ⟨((s.data.dropWhile Char.isWhitespace).reverse.dropWhile Char.isWhitespace).reverse⟩

/-- `listStartsWith n h` : the character list `n` starts the list `h`
(helper for Python's substring containment test). -/
def listStartsWith : List Char → List Char → Bool
  | [], _ => true
  | _ :: _, [] => false
  | a :: as, b :: bs => a == b && listStartsWith as bs

/-- Helper for `strContains`: does `needle` occur as a contiguous
sublist of the haystack? -/
def strContainsAux (needle : List Char) : List Char → Bool
  | [] => listStartsWith needle []
  | c :: rest => listStartsWith needle (c :: rest) || strContainsAux needle rest

/-- Python's `needle in hay` substring test, used by the source at
`if "Easy Apply" in apply_text:` (line 144). -/
def strContains (needle hay : String) : Bool :=
  strContainsAux needle.data hay.data

/-- The `Job` pydantic model (lines 20-28 of the source): one extracted
job posting. -/
structure Job where
  job_id : String
  title : String
  company : String
  job_info : String
  job_tags : List String
  job_description : String
  linkedin_url : String
  apply_url : String
deriving DecidableEq, Repr

/-- Outcome of the nested `expect_page` protocol (source lines 148-165):
either the first `expect_page` resolves a popup directly after clicking
the apply button (`direct`), or the fallback branch (click "Continue",
await a popup) resolves one (`confirm`), or neither resolves within its
timeout / some step of the protocol raises (`failed`, caught by the outer
`except` at line 166). -/
inductive PopupResult where
  | direct (url : String)
  | confirm (url : String)
  | failed
deriving DecidableEq, Repr

/-- What the browser shows the scraper for one job id: the observations
`save_job_details` makes after clicking the job card.  `none` in an
`Option` field models the corresponding locator raising (caught by the
per-field `try/except`). -/
structure JobPane where
  /-- the card scroll/click sequence (lines 100-108) succeeds -/
  clickOk : Bool
  /-- `h1.t-24.t-bold.inline` inner text, `none` = locator raised -/
  title : Option String
  /-- company-name locator inner text -/
  company : Option String
  /-- primary-description-container inner text -/
  jobInfo : Option String
  /-- job-insight span texts, `none` = locator raised -/
  tags : Option (List String)
  /-- `await apply_button.is_visible()` (line 140) -/
  applyVisible : Bool
  /-- `await apply_button.inner_text()` (line 141) -/
  applyText : String
  /-- outcome of the popup protocol if it is reached -/
  popup : PopupResult
  /-- description locator inner text -/
  descr : Option String
deriving DecidableEq, Repr

/-- `linkedin_url = f"https://www.linkedin.com/jobs/search/?currentJobId={job_id}"`
(source line 98). -/
def mkLinkedinUrl (jid : String) : String :=
  "https://www.linkedin.com/jobs/search/?currentJobId=" ++ jid

/-- Result of processing one job id's detail pane (source lines 100-199):
the card click failed and the id is silently skipped (`clickFailed`,
line 107-108); the apply label contains "Easy Apply" and the record is
discarded (`easyApplySkip`, lines 144-146); the apply protocol raised or
timed out, so the page is reloaded and the id abandoned
(`abandonedReload`, lines 166-169: `await page.reload(); continue`);
or a `Job` is constructed and saved (`saved`). -/
inductive PaneOutcome where
  | clickFailed
  | easyApplySkip
  | abandonedReload
  | saved (j : Job)
deriving DecidableEq, Repr

/-- The per-identifier body of `save_job_details` (source lines 100-196),
minus the accumulation-dict interaction: extract each field independently
(failure degrades to its sentinel), run the apply-URL logic, and either
produce the constructed `Job` or the non-saving outcome. -/
def processPane (jid : String) (p : JobPane) : PaneOutcome :=
  if p.clickOk = false then .clickFailed
  else
    let title := p.title.getD "N/A"
    let company := p.company.getD "N/A"
    let job_info := p.jobInfo.getD "N/A"
    let job_tags := ((p.tags.getD []).map pyStrip).filter (fun t => t ≠ "")
    let finish : String → PaneOutcome := fun apply_url =>
      let job_description := p.descr.getD "N/A"
      .saved
        { job_id := jid
          title := pyStrip title
          company := pyStrip company
          job_info := pyStrip job_info
          job_tags := job_tags
          job_description := pyStrip job_description
          linkedin_url := pyStrip (mkLinkedinUrl jid)
          apply_url := pyStrip apply_url }
    if p.applyVisible then
      let apply_text := pyStrip p.applyText
      if strContains "Easy Apply" apply_text then .easyApplySkip
      else
        match p.popup with
        | .direct url => finish url
        | .confirm url => finish url
        | .failed => .abandonedReload
    else
      -- apply button not visible: `apply_url` keeps its default `""`
      -- (line 137) and the record is still constructed and saved
      finish ""

/-- The accumulation mapping `jobs : dict[str, Job]`, as an
insertion-ordered association list. -/
abbrev Jobs : Type := List (String × Job)

/-- Python dict key lookup `jobs[k]` / membership `k in jobs`. -/
def jfind : Jobs → String → Option Job
  | [], _ => none
  | (k, j) :: rest, key => if k = key then some j else jfind rest key

/-- One iteration of the `for job_id in job_ids` loop in
`save_job_details`: returns the updated mapping and whether the
`break` at lines 203-204 fires (it fires only after a successful save,
when `len(jobs) >= NUMBER_OF_JOBS_TO_BE_SCRAPPED`; the target count is
kept as an explicit parameter). -/
def processOne (target : Nat) (env : String → JobPane) (jobs : Jobs) (jid : String) :
    Jobs × Bool :=
  if (jfind jobs jid).isSome then (jobs, false)  -- line 94-95: skip if already scraped
  else
    match processPane jid (env jid) with
    | .saved j =>
        let jobs' : Jobs := jobs ++ [(jid, j)]
        (jobs', decide (target ≤ jobs'.length))
    | _ => (jobs, false)

/-- `save_job_details` (source lines 92-204), as a fold over the enumerated
id list threading the accumulation mapping, stopping early when the
`break` fires. -/
def save_job_details (target : Nat) (env : String → JobPane) (jobs : Jobs) :
    List String → Jobs
  | [] => jobs
  | jid :: rest =>
      let r := processOne target env jobs jid
      if r.2 then r.1 else save_job_details target env r.1 rest

/-- `NUMBER_OF_JOBS_TO_BE_SCRAPPED` (source line 15). -/
def NUMBER_OF_JOBS_TO_BE_SCRAPPED : Nat := 300

/-- The `fieldnames` list of `save_jobs_to_csv` (source lines 217-226):
the fixed CSV column order. -/
def fieldnames : List String :=
  ["job_id", "title", "company", "job_info", "job_tags",
   "job_description", "linkedin_url", "apply_url"]

/-- The delimiter `", ".join(job.job_tags)` uses for the list-valued
`job_tags` field (source line 238). -/
def tagJoinDelimiter : String := ", "

/-- The field delimiter of the CSV dialect `csv.DictWriter` writes
(the default `,`). -/
def csvFieldDelimiter : String := ","

/-- One `writer.writerow({...})` call (source lines 233-242): the row
written for one `Job`, as its cell list in `fieldnames` order. -/
def rowOf (j : Job) : List String :=
  [j.job_id, j.title, j.company, j.job_info,
   String.intercalate tagJoinDelimiter j.job_tags,
   j.job_description, j.linkedin_url, j.apply_url]

/-- `save_jobs_to_csv` (source lines 207-244), at the row level: the
header row (`writer.writeheader()`, line 230) followed by one row per
accumulated record, iterating `jobs.values()` in insertion order. -/
def save_jobs_to_csv (jobs : Jobs) : List (List String) :=
  fieldnames :: jobs.map (fun p => rowOf p.2)

/-- The file write of `save_jobs_to_csv`: `open(file_path, mode="w", ...)`
(source line 228) truncates, so the resulting file contents are
`save_jobs_to_csv jobs` regardless of the file's prior contents. -/
def writeCsvFile (priorContents : List (List String)) (jobs : Jobs) :
    List (List String) :=
  save_jobs_to_csv jobs

/-- One iteration of `main`'s `while len(jobs) < NUMBER_OF_JOBS_TO_BE_SCRAPPED`
loop (source lines 270-274), as observed from outside: either
`collect_job_ids` yields the page's id list and `save_job_details`
completes on it (`ok ids`), or an exception is raised during the
iteration (`err`), which the `except Exception` at line 277 catches,
ending the loop with the jobs accumulated so far. -/
inductive PageFetch where
  | ok (ids : List String)
  | err
deriving DecidableEq, Repr

/-- The crawl loop of `main` (source lines 269-278) over a finite trace of
page iterations: while the accumulated count is below the target, process
the next page; an `err` page models a raised exception, caught at the
loop boundary so the loop exits with the current mapping. -/
def runCrawl (target : Nat) (env : String → JobPane) :
    List PageFetch → Jobs → Jobs
  | [], jobs => jobs
  | p :: rest, jobs =>
      if jobs.length < target then
        match p with
        | .ok ids => runCrawl target env rest (save_job_details target env jobs ids)
        | .err => jobs
      else jobs

/-- What `main` flushes (source line 284): after the `try/except/finally`
completes — on normal exit, target-reached exit, or a caught crawl
exception alike — `save_jobs_to_csv(jobs)` is called on the accumulated
mapping, starting from the empty dict of line 267. -/
def mainFlushedOutput (target : Nat) (env : String → JobPane)
    (pages : List PageFetch) : List (List String) :=
  save_jobs_to_csv (runCrawl target env pages [])

/-- The two environment-provided secrets `LINKEDIN_EMAIL` /
`LINKEDIN_PASSWORD` (source lines 13-14); `none` models an unset
environment variable (`os.getenv` returns `None`). -/
structure Credentials where
  email : Option String
  password : Option String
deriving DecidableEq, Repr

/-- `login` (source lines 31-44).  `page.fill` raises when handed `None`,
so an absent credential makes `login` raise (`none`), and `main` does not
catch it — the run aborts.  With both credentials present, `login` fills
the form, submits, waits, prints success, and saves the session state:
it never checks whether the site accepted the credentials, performs no
retry and no fallback, so it completes (`some ()`) whether or not the
credentials were valid. -/
def login (c : Credentials) : Option Unit :=
  match c.email, c.password with
  | some _, some _ => some ()
  | _, _ => none

/-- How `main` starts the run after session bootstrap: aborted by an
uncaught exception, or the crawl begins (with or without an
authenticated session). -/
inductive RunStart where
  | aborted
  | crawl (authenticated : Bool)
deriving DecidableEq, BEq, Repr

/-- The bootstrap sequence of `main` (source lines 260-264):
navigate; if that reports unauthenticated, call `login` (an exception
there propagates and aborts the run) and navigate again — but the second
navigation's Boolean result is discarded (line 264), so whether the login
actually authenticated (`credsValid`) never influences control flow:
the crawl starts regardless. -/
def mainBootstrap (firstNavAuthenticated : Bool) (c : Credentials)
    (credsValid : Bool) : RunStart :=
  if firstNavAuthenticated then .crawl true
  else
    match login c with
    | none => .aborted
    | some _ => .crawl credsValid

/-- Every pair in the mapping stores the job under its own `job_id` as
key (an invariant of `save_job_details`, which inserts `jobs[job_id] =
Job(job_id=job_id, ...)`). -/
def keyConsistent (jobs : Jobs) : Prop :=
  ∀ p ∈ jobs, (p : String × Job).2.job_id = p.1

/-- Fixture pane for witnesses: every field extracts, external apply flow
resolving through a directly opened popup. -/
def witPane : JobPane :=
  { clickOk := true, title := some "Engineer", company := some "Acme",
    jobInfo := some "NYC (Remote)", tags := some ["Remote"],
    applyVisible := true, applyText := "Apply",
    popup := .direct "https://careers.example/apply", descr := some "desc" }

/-- The record `save_job_details` builds from `witPane` for id `jid`. -/
def witJob (jid : String) : Job :=
  { job_id := jid, title := "Engineer", company := "Acme",
    job_info := "NYC (Remote)", job_tags := ["Remote"],
    job_description := "desc",
    linkedin_url := "https://www.linkedin.com/jobs/search/?currentJobId=" ++ jid,
    apply_url := "https://careers.example/apply" }

/-- Fixture pane whose apply-control label is the quick-apply pattern. -/
def easyPane : JobPane :=
  { witPane with applyText := "Easy Apply" }

/-- Fixture pane whose primary apply control is not visible. -/
def paneNoButton : JobPane :=
  { witPane with applyVisible := false, applyText := "" }

/-- The record the engine saves from `paneNoButton`: note the empty
`apply_url`. -/
def jobNoButton (jid : String) : Job :=
  { witJob jid with apply_url := "" }

/-- Fixture pane whose popup protocol fails (neither a direct popup nor a
confirm-then-popup outcome within the timeouts). -/
def failPane : JobPane :=
  { witPane with popup := .failed }

/-- Fixture pane with the title locator raising, everything else intact. -/
def noTitlePane : JobPane :=
  { witPane with title := none }

/-! ### Basic lemmas about the accumulation mapping -/

@[simp]
theorem jfind_nil (k : String) : jfind [] k = none := rfl

@[simp]
theorem jfind_cons (k' : String) (j : Job) (rest : Jobs) (k : String) :
    jfind ((k', j) :: rest) k = if k' = k then some j else jfind rest k := rfl

theorem jfind_append_of_some {jobs : Jobs} {k : String} {j : Job}
    (h : jfind jobs k = some j) (l : Jobs) : jfind (jobs ++ l) k = some j := by
  induction jobs with
  | nil => simp at h
  | cons p rest ih =>
      obtain ⟨k', j'⟩ := p
      simp only [jfind_cons] at h ⊢
      split at h
      · simp_all
      · simp_all [ih h]

theorem jfind_append_of_none {jobs : Jobs} {k : String}
    (h : jfind jobs k = none) (l : Jobs) : jfind (jobs ++ l) k = jfind l k := by
  induction jobs with
  | nil => simp
  | cons p rest ih =>
      obtain ⟨k', j'⟩ := p
      simp only [jfind_cons] at h ⊢
      split at h
      · simp_all
      · simp_all [ih h]

theorem jfind_eq_none_iff {jobs : Jobs} {k : String} :
    jfind jobs k = none ↔ k ∉ jobs.map Prod.fst := by
  induction jobs with
  | nil => simp
  | cons p rest ih =>
      obtain ⟨k', j'⟩ := p
      simp only [jfind_cons, List.map_cons, List.mem_cons]
      split
      · simp_all
      · simp_all [eq_comm]

/-! ### Lemmas about `processPane` -/

theorem processPane_saved_job_id {jid : String} {p : JobPane} {j : Job}
    (h : processPane jid p = .saved j) : j.job_id = jid := by
  unfold processPane at h
  split at h
  · simp at h
  · dsimp only at h
    split at h
    · split at h
      · simp at h
      · split at h <;> simp_all <;> (subst h; rfl)
    · simp only [PaneOutcome.saved.injEq] at h
      subst h
      rfl

theorem processPane_easyApply_not_saved {jid : String} {p : JobPane}
    (hv : p.applyVisible = true)
    (he : strContains "Easy Apply" (pyStrip p.applyText) = true)
    (j : Job) : processPane jid p ≠ .saved j := by
  unfold processPane
  split
  · simp
  · simp only [hv, if_true, he]
    simp

theorem processPane_abandon {jid : String} {p : JobPane}
    (hc : p.clickOk = true) (hv : p.applyVisible = true)
    (he : strContains "Easy Apply" (pyStrip p.applyText) = false)
    (hp : p.popup = .failed) : processPane jid p = .abandonedReload := by
  unfold processPane
  simp [hc, hv, he, hp]

theorem processPane_notVisible {jid : String} {p : JobPane}
    (hc : p.clickOk = true) (hv : p.applyVisible = false) :
    processPane jid p = .saved
      { job_id := jid
        title := pyStrip (p.title.getD "N/A")
        company := pyStrip (p.company.getD "N/A")
        job_info := pyStrip (p.jobInfo.getD "N/A")
        job_tags := ((p.tags.getD []).map pyStrip).filter (fun t => t ≠ "")
        job_description := pyStrip (p.descr.getD "N/A")
        linkedin_url := pyStrip (mkLinkedinUrl jid)
        apply_url := pyStrip "" } := by
  unfold processPane
  simp [hc, hv]

theorem processPane_directPopup {jid : String} {p : JobPane} {u : String}
    (hc : p.clickOk = true) (hv : p.applyVisible = true)
    (he : strContains "Easy Apply" (pyStrip p.applyText) = false)
    (hp : p.popup = .direct u) :
    processPane jid p = .saved
      { job_id := jid
        title := pyStrip (p.title.getD "N/A")
        company := pyStrip (p.company.getD "N/A")
        job_info := pyStrip (p.jobInfo.getD "N/A")
        job_tags := ((p.tags.getD []).map pyStrip).filter (fun t => t ≠ "")
        job_description := pyStrip (p.descr.getD "N/A")
        linkedin_url := pyStrip (mkLinkedinUrl jid)
        apply_url := pyStrip u } := by
  unfold processPane
  simp [hc, hv, he, hp]

/-! ### Invariants of `save_job_details` -/

@[simp]
theorem save_job_details_nil (target : Nat) (env : String → JobPane) (jobs : Jobs) :
    save_job_details target env jobs [] = jobs := rfl

theorem save_job_details_cons (target : Nat) (env : String → JobPane) (jobs : Jobs)
    (jid : String) (rest : List String) :
    save_job_details target env jobs (jid :: rest) =
      (if (processOne target env jobs jid).2 then (processOne target env jobs jid).1
       else save_job_details target env (processOne target env jobs jid).1 rest) := rfl

/-- Case analysis on one loop iteration: either the mapping is unchanged,
or a fresh key was appended with its constructed job. -/
theorem processOne_cases (target : Nat) (env : String → JobPane) (jobs : Jobs)
    (jid : String) :
    ((processOne target env jobs jid).1 = jobs ∧
      ((processOne target env jobs jid).2 = false)) ∨
    (∃ j, processPane jid (env jid) = .saved j ∧ jfind jobs jid = none ∧
      (processOne target env jobs jid).1 = jobs ++ [(jid, j)]) := by
  unfold processOne
  split
  · exact Or.inl ⟨rfl, rfl⟩
  · rename_i hn
    split
    case h_1 j heq => exact Or.inr ⟨j, heq, by simpa using hn, rfl⟩
    all_goals exact Or.inl ⟨rfl, rfl⟩

/-- First-seen wins: an existing binding survives the whole loop. -/
theorem save_job_details_preserves_binding (target : Nat) (env : String → JobPane) :
    ∀ (ids : List String) (jobs : Jobs) (k : String) (j : Job),
      jfind jobs k = some j →
      jfind (save_job_details target env jobs ids) k = some j := by
  intro ids
  induction ids with
  | nil => intro jobs k j h; simpa using h
  | cons jid rest ih =>
      intro jobs k j h
      rw [save_job_details_cons]
      have hstep : jfind (processOne target env jobs jid).1 k = some j := by
        rcases processOne_cases target env jobs jid with ⟨heq, _⟩ | ⟨j', _, _, heq⟩
        · rw [heq]; exact h
        · rw [heq]; exact jfind_append_of_some h _
      split
      · exact hstep
      · exact ih _ k j hstep

/-- Key uniqueness: the loop never creates a duplicate key. -/
theorem save_job_details_nodup (target : Nat) (env : String → JobPane) :
    ∀ (ids : List String) (jobs : Jobs),
      (jobs.map Prod.fst).Nodup →
      ((save_job_details target env jobs ids).map Prod.fst).Nodup := by
  intro ids
  induction ids with
  | nil => intro jobs h; simpa using h
  | cons jid rest ih =>
      intro jobs h
      rw [save_job_details_cons]
      have hstep : ((processOne target env jobs jid).1.map Prod.fst).Nodup := by
        rcases processOne_cases target env jobs jid with ⟨heq, _⟩ | ⟨j', _, hnone, heq⟩
        · rw [heq]; exact h
        · rw [heq]
          have hmem : jid ∉ jobs.map Prod.fst := jfind_eq_none_iff.mp hnone
          simp only [List.map_append, List.map_cons, List.map_nil]
          rw [List.nodup_append]
          exact ⟨h, List.nodup_singleton _, by simpa using hmem⟩
      split
      · exact hstep
      · exact ih _ hstep

/-- A key whose pane outcome is not `saved` is never inserted: its lookup
is unchanged across the whole loop. -/
theorem save_job_details_not_saved_untouched (target : Nat) (env : String → JobPane)
    (jid : String) (hns : ∀ j, processPane jid (env jid) ≠ .saved j) :
    ∀ (ids : List String) (jobs : Jobs),
      jfind (save_job_details target env jobs ids) jid = jfind jobs jid := by
  intro ids
  induction ids with
  | nil => intro jobs; simp
  | cons x rest ih =>
      intro jobs
      rw [save_job_details_cons]
      have hstep : jfind (processOne target env jobs x).1 jid = jfind jobs jid := by
        rcases processOne_cases target env jobs x with ⟨heq, _⟩ | ⟨j', hsaved, hnone, heq⟩
        · rw [heq]
        · rw [heq]
          by_cases hx : x = jid
          · subst hx
            exact absurd hsaved (hns j')
          · rcases hmem : jfind jobs jid with _ | j
            · rw [jfind_append_of_none hmem]
              simp [hx]
            · exact jfind_append_of_some hmem _
      split
      · exact hstep
      · rw [ih _, hstep]

/-- Key consistency is preserved: every inserted pair stores the job
under its own `job_id`. -/
theorem save_job_details_keyConsistent (target : Nat) (env : String → JobPane) :
    ∀ (ids : List String) (jobs : Jobs),
      keyConsistent jobs →
      keyConsistent (save_job_details target env jobs ids) := by
  intro ids
  induction ids with
  | nil => intro jobs h; simpa using h
  | cons jid rest ih =>
      intro jobs h
      rw [save_job_details_cons]
      have hstep : keyConsistent (processOne target env jobs jid).1 := by
        rcases processOne_cases target env jobs jid with ⟨heq, _⟩ | ⟨j', hsaved, _, heq⟩
        · rw [heq]; exact h
        · rw [heq]
          intro p hp
          rcases List.mem_append.mp hp with hp | hp
          · exact h p hp
          · simp only [List.mem_singleton] at hp
            subst hp
            exact processPane_saved_job_id hsaved
      split
      · exact hstep
      · exact ih _ hstep

/-- The break flag fires only when the updated mapping has reached the
target count. -/
theorem processOne_break_ge (target : Nat) (env : String → JobPane) (jobs : Jobs)
    (jid : String) (h : (processOne target env jobs jid).2 = true) :
    target ≤ (processOne target env jobs jid).1.length := by
  by_cases hj : (jfind jobs jid).isSome = true
  · simp [processOne, hj] at h
  · cases hp : processPane jid (env jid) with
    | saved j =>
        simp [processOne, hj, hp] at h ⊢
        exact h
    | clickFailed => simp [processOne, hj, hp] at h
    | easyApplySkip => simp [processOne, hj, hp] at h
    | abandonedReload => simp [processOne, hj, hp] at h

/-- If the break did not fire and the mapping was below the target before
the iteration, it is still below the target after it. -/
theorem processOne_no_break_lt (target : Nat) (env : String → JobPane) (jobs : Jobs)
    (jid : String) (hlt : jobs.length < target)
    (h : (processOne target env jobs jid).2 = false) :
    (processOne target env jobs jid).1.length < target := by
  by_cases hj : (jfind jobs jid).isSome = true
  · simpa [processOne, hj] using hlt
  · cases hp : processPane jid (env jid) with
    | saved j =>
        simp [processOne, hj, hp] at h ⊢
        omega
    | clickFailed => simpa [processOne, hj, hp] using hlt
    | easyApplySkip => simpa [processOne, hj, hp] using hlt
    | abandonedReload => simpa [processOne, hj, hp] using hlt

/-- One iteration grows the mapping by at most one entry. -/
theorem processOne_length_le (target : Nat) (env : String → JobPane) (jobs : Jobs)
    (jid : String) :
    (processOne target env jobs jid).1.length ≤ jobs.length + 1 := by
  unfold processOne
  split
  · simp
  · split <;> simp

/-- Starting below the target, the loop never pushes the mapping past the
target count. -/
theorem save_job_details_length_le (target : Nat) (env : String → JobPane) :
    ∀ (ids : List String) (jobs : Jobs), jobs.length < target →
      (save_job_details target env jobs ids).length ≤ target := by
  intro ids
  induction ids with
  | nil => intro jobs h; simpa using Nat.le_of_lt h
  | cons jid rest ih =>
      intro jobs h
      rw [save_job_details_cons]
      split
      · calc (processOne target env jobs jid).1.length
            ≤ jobs.length + 1 := processOne_length_le target env jobs jid
          _ ≤ target := h
      · exact ih _ (processOne_no_break_lt target env jobs jid h (by simp_all))

/-- Mid-page halt: once the loop has reached the target on a prefix of the
id list, appending further ids changes nothing — they are never
processed. -/
theorem save_job_details_break_prefix (target : Nat) (env : String → JobPane) :
    ∀ (ids₁ : List String) (jobs : Jobs) (ids₂ : List String),
      jobs.length < target →
      target ≤ (save_job_details target env jobs ids₁).length →
      save_job_details target env jobs (ids₁ ++ ids₂) =
        save_job_details target env jobs ids₁ := by
  intro ids₁
  induction ids₁ with
  | nil =>
      intro jobs ids₂ hlt hge
      simp only [save_job_details_nil] at hge
      exact absurd hge (Nat.not_le_of_lt hlt)
  | cons jid rest ih =>
      intro jobs ids₂ hlt hge
      rw [List.cons_append, save_job_details_cons]
      rw [save_job_details_cons] at hge ⊢
      split
      · rfl
      · rename_i hb
        rw [if_neg hb] at hge
        exact ih _ ids₂
          (processOne_no_break_lt target env jobs jid hlt (by simpa using hb)) hge

/-! ### Lemmas about the crawl loop of `main` -/

@[simp]
theorem runCrawl_nil (target : Nat) (env : String → JobPane) (jobs : Jobs) :
    runCrawl target env [] jobs = jobs := rfl

theorem runCrawl_cons (target : Nat) (env : String → JobPane) (p : PageFetch)
    (rest : List PageFetch) (jobs : Jobs) :
    runCrawl target env (p :: rest) jobs =
      (if jobs.length < target then
        match p with
        | .ok ids => runCrawl target env rest (save_job_details target env jobs ids)
        | .err => jobs
      else jobs) := rfl

/-- A trailing exception iteration never changes the accumulated mapping:
the crawl's result is whatever had been accumulated when it was raised. -/
theorem runCrawl_append_err (target : Nat) (env : String → JobPane) :
    ∀ (ps : List PageFetch) (jobs : Jobs),
      runCrawl target env (ps ++ [PageFetch.err]) jobs =
        runCrawl target env ps jobs := by
  intro ps
  induction ps with
  | nil =>
      intro jobs
      rw [List.nil_append, runCrawl_cons, runCrawl_nil]
      split <;> rfl
  | cons p rest ih =>
      intro jobs
      rw [List.cons_append, runCrawl_cons, runCrawl_cons]
      split
      · cases p with
        | ok ids => exact ih _
        | err => rfl
      · rfl

/-- The crawl respects the target bound throughout. -/
theorem runCrawl_length_le (target : Nat) (env : String → JobPane) :
    ∀ (pages : List PageFetch) (jobs : Jobs), jobs.length ≤ target →
      (runCrawl target env pages jobs).length ≤ target := by
  intro pages
  induction pages with
  | nil => intro jobs h; simpa using h
  | cons p rest ih =>
      intro jobs h
      rw [runCrawl_cons]
      split
      · cases p with
        | ok ids =>
            rename_i hlt
            exact ih _ (save_job_details_length_le target env ids jobs hlt)
        | err => exact h
      · exact h

/-! ### Lemmas about the CSV flush -/

@[simp]
theorem rowOf_head (j : Job) : (rowOf j).head? = some j.job_id := rfl

@[simp]
theorem save_jobs_to_csv_drop_one (jobs : Jobs) :
    (save_jobs_to_csv jobs).drop 1 = jobs.map (fun p => rowOf p.2) := rfl

/-- Rows of entries whose key differs from `k` never match a head-filter
for `k` (given key consistency). -/
theorem csv_filter_no_key (k : String) :
    ∀ (jobs : Jobs), keyConsistent jobs → k ∉ jobs.map Prod.fst →
      (jobs.map (fun p => rowOf p.2)).filter
        (fun r => decide (r.head? = some k)) = [] := by
  intro jobs
  induction jobs with
  | nil => intro _ _; rfl
  | cons p rest ih =>
      intro hkc hmem
      obtain ⟨k', j'⟩ := p
      have hid : j'.job_id = k' := hkc (k', j') (List.mem_cons_self _ _)
      simp only [List.map_cons, List.mem_cons, not_or] at hmem
      rw [List.map_cons, List.filter_cons]
      have hne : k' ≠ k := fun hh => hmem.1 hh.symm
      have : (decide ((rowOf j').head? = some k)) = false := by
        simp [rowOf_head, hid, hne]
      rw [this]
      exact ih (fun q hq => hkc q (List.mem_cons_of_mem _ hq)) hmem.2

/-- Exactly-once serialization: under key uniqueness and key consistency,
the record stored at key `k` yields exactly one data row whose first cell
is `k`, namely its own row. -/
theorem csv_row_unique (k : String) (j : Job) :
    ∀ (jobs : Jobs), (jobs.map Prod.fst).Nodup → keyConsistent jobs →
      jfind jobs k = some j →
      ((save_jobs_to_csv jobs).drop 1).filter
        (fun r => decide (r.head? = some k)) = [rowOf j] := by
  intro jobs
  induction jobs with
  | nil => intro _ _ h; simp at h
  | cons p rest ih =>
      intro hnd hkc hfind
      obtain ⟨k', j'⟩ := p
      have hid : j'.job_id = k' := hkc (k', j') (List.mem_cons_self _ _)
      have hkc' : keyConsistent rest := fun q hq => hkc q (List.mem_cons_of_mem _ hq)
      simp only [List.map_cons, List.nodup_cons] at hnd
      rw [save_jobs_to_csv_drop_one, List.map_cons, List.filter_cons]
      rw [jfind_cons] at hfind
      by_cases hk : k' = k
      · subst hk
        simp at hfind
        subst hfind
        have : (decide ((rowOf j').head? = some k')) = true := by simp [rowOf_head, hid]
        rw [this]
        rw [csv_filter_no_key k' rest hkc' hnd.1]
        simp
      · rw [if_neg hk] at hfind
        have : (decide ((rowOf j').head? = some k)) = false := by
          simp [rowOf_head, hid, hk]
        rw [this]
        have := ih hnd.2 hkc' hfind
        rw [save_jobs_to_csv_drop_one] at this
        exact this

/-! ### Claim theorems -/

/-- C1: for every run and every sequence of enumerated identifier lists,
the accumulation mapping never contains two entries with the same
identifier, and processing an identifier already present leaves its
existing record unchanged — first-seen wins: `save_job_details` skips any
`job_id` already in the `jobs` dict, so re-enumerating a page whose
identifiers overlap a previous page neither duplicates nor overwrites
existing entries. -/
theorem C1_dedup_first_seen_wins (target : Nat) (env : String → JobPane)
    (ids : List String) (jobs : Jobs) (k : String) (j : Job)
    (hfound : jfind jobs k = some j) (hnd : (jobs.map Prod.fst).Nodup) :
    jfind (save_job_details target env jobs ids) k = some j ∧
    ((save_job_details target env jobs ids).map Prod.fst).Nodup :=
  ⟨save_job_details_preserves_binding target env ids jobs k j hfound,
   save_job_details_nodup target env ids jobs hnd⟩

theorem C1_dedup_witness :
    jfind (save_job_details 5 (fun _ => witPane) [("a", witJob "a")] ["a", "b"]) "a" =
      some (witJob "a") ∧
    ((save_job_details 5 (fun _ => witPane) [("a", witJob "a")] ["a", "b"]).map
      Prod.fst).Nodup :=
  C1_dedup_first_seen_wins 5 (fun _ => witPane) ["a", "b"] [("a", witJob "a")] "a"
    (witJob "a") (by decide) (by decide)

/-- C2: if an exception is raised during the crawl loop after N records
have been accumulated (0 < N < targetCount), the flush still executes —
every path through `main` reaches `save_jobs_to_csv(jobs)` — and the
interchange file written for the run contains exactly those N records
(header plus one row per accumulated record). -/
theorem C2_flush_on_failure (target : Nat) (env : String → JobPane)
    (ps : List PageFetch)
    (h1 : 0 < (runCrawl target env ps []).length)
    (h2 : (runCrawl target env ps []).length < target) :
    mainFlushedOutput target env (ps ++ [PageFetch.err]) =
      fieldnames :: (runCrawl target env ps []).map (fun p => rowOf p.2) ∧
    (mainFlushedOutput target env (ps ++ [PageFetch.err])).length =
      (runCrawl target env ps []).length + 1 := by
  constructor
  · unfold mainFlushedOutput
    rw [runCrawl_append_err]
    rfl
  · unfold mainFlushedOutput
    rw [runCrawl_append_err]
    simp [save_jobs_to_csv]

theorem C2_flush_witness :
    mainFlushedOutput 3 (fun _ => witPane) ([PageFetch.ok ["a"]] ++ [PageFetch.err]) =
      fieldnames ::
        (runCrawl 3 (fun _ => witPane) [PageFetch.ok ["a"]] []).map (fun p => rowOf p.2) ∧
    (mainFlushedOutput 3 (fun _ => witPane) ([PageFetch.ok ["a"]] ++ [PageFetch.err])).length =
      (runCrawl 3 (fun _ => witPane) [PageFetch.ok ["a"]] []).length + 1 :=
  C2_flush_on_failure 3 (fun _ => witPane) [PageFetch.ok ["a"]] (by decide) (by decide)

/-- C3: the crawl halts and flushes as soon as the accumulation mapping's
size reaches the configured target count, even in the middle of a page's
identifier list (the ids after the break point are never processed), and
— starting below the target, as `main` always does — the final size never
exceeds the target: the single in-flight record reaching the bound
triggers the break immediately. -/
theorem C3_termination_bound (target : Nat) (env : String → JobPane)
    (jobs : Jobs) (ids₁ ids₂ : List String) (pages : List PageFetch)
    (h : jobs.length < target)
    (hreach : target ≤ (save_job_details target env jobs ids₁).length) :
    (save_job_details target env jobs (ids₁ ++ ids₂)).length ≤ target ∧
    save_job_details target env jobs (ids₁ ++ ids₂) =
      save_job_details target env jobs ids₁ ∧
    (runCrawl target env pages []).length ≤ target :=
  ⟨save_job_details_length_le target env (ids₁ ++ ids₂) jobs h,
   save_job_details_break_prefix target env ids₁ jobs ids₂ h hreach,
   runCrawl_length_le target env pages [] (by simp)⟩

theorem C3_termination_witness :
    (save_job_details 1 (fun _ => witPane) [] (["a"] ++ ["b"])).length ≤ 1 ∧
    save_job_details 1 (fun _ => witPane) [] (["a"] ++ ["b"]) =
      save_job_details 1 (fun _ => witPane) [] ["a"] ∧
    (runCrawl 1 (fun _ => witPane) [PageFetch.ok ["a", "b"]] []).length ≤ 1 :=
  C3_termination_bound 1 (fun _ => witPane) [] ["a"] ["b"] [PageFetch.ok ["a", "b"]]
    (by decide) (by decide)

/-- C4: for every posting whose apply-control label matches the
in-product quick-apply (Easy Apply) pattern, the record is discarded
entirely: it is never inserted into the accumulation mapping, and no data
row of the interchange output carries its identifier, regardless of how
complete its other fields are. -/
theorem C4_easy_apply_excluded (target : Nat) (env : String → JobPane)
    (jid : String) (ids : List String) (jobs : Jobs)
    (hv : (env jid).applyVisible = true)
    (he : strContains "Easy Apply" (pyStrip (env jid).applyText) = true)
    (hnone : jfind jobs jid = none) (hkc : keyConsistent jobs) :
    jfind (save_job_details target env jobs ids) jid = none ∧
    ((save_jobs_to_csv (save_job_details target env jobs ids)).drop 1).filter
      (fun r => decide (r.head? = some jid)) = [] := by
  have huntouched :
      jfind (save_job_details target env jobs ids) jid = jfind jobs jid :=
    save_job_details_not_saved_untouched target env jid
      (processPane_easyApply_not_saved hv he) ids jobs
  have hres : jfind (save_job_details target env jobs ids) jid = none :=
    huntouched.trans hnone
  refine ⟨hres, ?_⟩
  rw [save_jobs_to_csv_drop_one]
  exact csv_filter_no_key jid (save_job_details target env jobs ids)
    (save_job_details_keyConsistent target env ids jobs hkc)
    (jfind_eq_none_iff.mp hres)

theorem C4_easy_apply_witness :
    jfind (save_job_details 300 (fun _ => easyPane) [] ["1"]) "1" = none ∧
    ((save_jobs_to_csv (save_job_details 300 (fun _ => easyPane) [] ["1"])).drop 1).filter
      (fun r => decide (r.head? = some "1")) = [] :=
  C4_easy_apply_excluded 300 (fun _ => easyPane) "1" ["1"] [] (by decide) (by decide)
    (by decide) (fun p hp => absurd hp (List.not_mem_nil p))

/-- C5: each detail field is extracted independently and a failure
degrades only that field to its sentinel without aborting the record:
given a detail pane missing the title element, the resulting record has
title == "N/A" while all other independently-extractable fields
(company, work context, tags, description) are populated normally. -/
theorem C5_sentinel_title_isolated (jid : String) (p : JobPane)
    (c info d u : String) (ts : List String)
    (hc : p.clickOk = true) (ht : p.title = none)
    (hcm : p.company = some c) (hji : p.jobInfo = some info)
    (htags : p.tags = some ts) (hd : p.descr = some d)
    (hv : p.applyVisible = true)
    (he : strContains "Easy Apply" (pyStrip p.applyText) = false)
    (hp : p.popup = .direct u) :
    processPane jid p = .saved
      { job_id := jid
        title := "N/A"
        company := pyStrip c
        job_info := pyStrip info
        job_tags := (ts.map pyStrip).filter (fun t => t ≠ "")
        job_description := pyStrip d
        linkedin_url := pyStrip (mkLinkedinUrl jid)
        apply_url := pyStrip u } := by
  rw [processPane_directPopup hc hv he hp, ht, hcm, hji, htags, hd]
  rfl

theorem C5_sentinel_witness :
    processPane "1" noTitlePane = .saved
      { job_id := "1"
        title := "N/A"
        company := pyStrip "Acme"
        job_info := pyStrip "NYC (Remote)"
        job_tags := (["Remote"].map pyStrip).filter (fun t => t ≠ "")
        job_description := pyStrip "desc"
        linkedin_url := pyStrip (mkLinkedinUrl "1")
        apply_url := pyStrip "https://careers.example/apply" } :=
  C5_sentinel_title_isolated "1" noTitlePane "Acme" "NYC (Remote)" "desc"
    "https://careers.example/apply" ["Remote"] (by decide) rfl rfl rfl rfl rfl
    (by decide) (by decide) rfl

/-- C6 counterexample: with credentials present but rejected by the site,
the run does not abort — `login` never verifies the outcome and `main`
discards the result of the post-login re-navigation (source line 264), so
the crawl starts over an unauthenticated session. -/
theorem C6_rejected_creds_counterexample :
    mainBootstrap false { email := some "user@example.com", password := some "hunter2" }
      false = RunStart.crawl false ∧
    (mainBootstrap false { email := some "user@example.com", password := some "hunter2" }
      false == RunStart.aborted) = false := by decide

/-- C6 (amended): absent credentials are a fatal condition — `login`
raises (filling a form field with `None` fails), the exception is not
caught, no retry and no fallback happen, and the run aborts.  Rejected
credentials, by contrast, are not detected: `login` completes without
checking the outcome, and the crawl proceeds with an unauthenticated
session because the post-login navigation's result is discarded. -/
theorem C6_login_fatality_amended (c : Credentials) (v : Bool) (e pw : String)
    (h : c.email = none ∨ c.password = none) :
    login c = none ∧
    mainBootstrap false c v = RunStart.aborted ∧
    mainBootstrap false { email := some e, password := some pw } v =
      RunStart.crawl v := by
  obtain ⟨ce, cp⟩ := c
  have hl : login { email := ce, password := cp } = none := by
    rcases h with h | h
    · simp only at h
      subst h
      cases cp <;> rfl
    · simp only at h
      subst h
      cases ce <;> rfl
  exact ⟨hl, by simp [mainBootstrap, hl], rfl⟩

theorem C6_login_witness :
    login { email := none, password := some "hunter2" } = none ∧
    mainBootstrap false { email := none, password := some "hunter2" } false =
      RunStart.aborted ∧
    mainBootstrap false { email := some "user@example.com", password := some "hunter2" }
      false = RunStart.crawl false :=
  C6_login_fatality_amended { email := none, password := some "hunter2" } false
    "user@example.com" "hunter2" (Or.inl rfl)

/-- C7 counterexample: a posting whose primary apply control is not
visible is not an Easy Apply posting, yet it is inserted into the
accumulation mapping and serialized to the interchange output with
`apply_url = ""` — refuting the claim that an empty applyUrl arises only
for easy-apply postings and that those records never appear. -/
theorem C7_empty_apply_url_counterexample :
    strContains "Easy Apply" (pyStrip paneNoButton.applyText) = false ∧
    jfind (save_job_details 300 (fun _ => paneNoButton) [] ["1"]) "1" =
      some (jobNoButton "1") ∧
    (jobNoButton "1").apply_url = "" ∧
    (save_jobs_to_csv (save_job_details 300 (fun _ => paneNoButton) [] ["1"])).drop 1 =
      [rowOf (jobNoButton "1")] := by decide

/-- C7 (amended): easy-apply postings are excluded entirely, but a
non-empty applyUrl is not an invariant of the accumulated records: when
the primary apply control is not visible, the `apply_url` default `""`
survives and the record is saved — with every other field extracted
normally — so records with an empty applyUrl do reach the accumulation
mapping and the interchange output. -/
theorem C7_apply_url_amended (jid : String) (p : JobPane)
    (hc : p.clickOk = true) (hv : p.applyVisible = false) :
    processPane jid p = .saved
      { job_id := jid
        title := pyStrip (p.title.getD "N/A")
        company := pyStrip (p.company.getD "N/A")
        job_info := pyStrip (p.jobInfo.getD "N/A")
        job_tags := ((p.tags.getD []).map pyStrip).filter (fun t => t ≠ "")
        job_description := pyStrip (p.descr.getD "N/A")
        linkedin_url := pyStrip (mkLinkedinUrl jid)
        apply_url := "" } := by
  rw [processPane_notVisible hc hv]
  rfl

theorem C7_apply_url_witness :
    processPane "1" paneNoButton = .saved
      { job_id := "1"
        title := pyStrip (paneNoButton.title.getD "N/A")
        company := pyStrip (paneNoButton.company.getD "N/A")
        job_info := pyStrip (paneNoButton.jobInfo.getD "N/A")
        job_tags := ((paneNoButton.tags.getD []).map pyStrip).filter (fun t => t ≠ "")
        job_description := pyStrip (paneNoButton.descr.getD "N/A")
        linkedin_url := pyStrip (mkLinkedinUrl "1")
        apply_url := "" } :=
  C7_apply_url_amended "1" paneNoButton (by decide) (by decide)

/-- C8: when the apply-URL protocol resolves neither a direct popup nor a
confirm-then-popup outcome within its timeouts (or any exception occurs
during it), the identifier is abandoned — the pane outcome is the
reload-and-abandon case (`await page.reload(); continue`), and the
identifier's entry in the accumulation mapping is exactly what it was
before the loop: it is never added, not even with an empty applyUrl. -/
theorem C8_unresolved_abandon (target : Nat) (env : String → JobPane)
    (jid : String) (ids : List String) (jobs : Jobs)
    (hc : (env jid).clickOk = true)
    (hv : (env jid).applyVisible = true)
    (he : strContains "Easy Apply" (pyStrip (env jid).applyText) = false)
    (hp : (env jid).popup = .failed) :
    processPane jid (env jid) = .abandonedReload ∧
    jfind (save_job_details target env jobs ids) jid = jfind jobs jid := by
  have habandon := @processPane_abandon jid (env jid) hc hv he hp
  refine ⟨habandon, ?_⟩
  exact save_job_details_not_saved_untouched target env jid
    (fun j hj => by rw [habandon] at hj; exact PaneOutcome.noConfusion hj) ids jobs

theorem C8_unresolved_witness :
    processPane "1" failPane = .abandonedReload ∧
    jfind (save_job_details 300 (fun _ => failPane) [] ["1", "2"]) "1" =
      jfind ([] : Jobs) "1" :=
  C8_unresolved_abandon 300 (fun _ => failPane) "1" ["1", "2"] []
    (by decide) (by decide) (by decide) rfl

/-- C9: flush serializes every accumulated record exactly once to a
delimited file with the fixed column order [identifier, title, company,
workContext, tags, description, sourceUrl, applyUrl] — one header row
followed by one row per record in insertion order; the record stored at a
key yields exactly one data row headed by that key; and the list-valued
tags field is serialized as a single string joined with a fixed delimiter
(", ") distinct from the file's field delimiter (","). -/
theorem C9_flush_serialization (jobs : Jobs) (k : String) (j : Job)
    (hnd : (jobs.map Prod.fst).Nodup) (hkc : keyConsistent jobs)
    (hfind : jfind jobs k = some j) :
    save_jobs_to_csv jobs = fieldnames :: jobs.map (fun p => rowOf p.2) ∧
    (save_jobs_to_csv jobs).length = jobs.length + 1 ∧
    rowOf j = [j.job_id, j.title, j.company, j.job_info,
      String.intercalate tagJoinDelimiter j.job_tags,
      j.job_description, j.linkedin_url, j.apply_url] ∧
    (tagJoinDelimiter == csvFieldDelimiter) = false ∧
    ((save_jobs_to_csv jobs).drop 1).filter
      (fun r => decide (r.head? = some k)) = [rowOf j] := by
  refine ⟨rfl, by simp [save_jobs_to_csv], rfl, by decide, ?_⟩
  exact csv_row_unique k j jobs hnd hkc hfind

theorem C9_flush_witness :
    save_jobs_to_csv [("a", witJob "a")] =
      fieldnames :: [("a", witJob "a")].map (fun p => rowOf p.2) ∧
    (save_jobs_to_csv [("a", witJob "a")]).length = [("a", witJob "a")].length + 1 ∧
    rowOf (witJob "a") = [(witJob "a").job_id, (witJob "a").title, (witJob "a").company,
      (witJob "a").job_info, String.intercalate tagJoinDelimiter (witJob "a").job_tags,
      (witJob "a").job_description, (witJob "a").linkedin_url, (witJob "a").apply_url] ∧
    (tagJoinDelimiter == csvFieldDelimiter) = false ∧
    ((save_jobs_to_csv [("a", witJob "a")]).drop 1).filter
      (fun r => decide (r.head? = some "a")) = [rowOf (witJob "a")] :=
  C9_flush_serialization [("a", witJob "a")] "a" (witJob "a") (by decide)
    (fun p hp => by rw [List.mem_singleton] at hp; subst hp; rfl) (by decide)

/-- C10: for every accumulation mapping, including the empty one,
`save_jobs_to_csv` opens the target file in overwrite (truncating) mode —
the resulting contents are independent of any prior contents — and writes
the header row first; flushing an empty mapping succeeds and produces a
file containing exactly the header row. -/
theorem C10_overwrite_header (prior prior' : List (List String)) (jobs : Jobs) :
    writeCsvFile prior [] = [fieldnames] ∧
    writeCsvFile prior jobs = writeCsvFile prior' jobs ∧
    (writeCsvFile prior jobs).head? = some fieldnames ∧
    (writeCsvFile prior []).length = 1 :=
  ⟨rfl, rfl, rfl, rfl⟩

end LinkedinJobScrapper
